import Mathlib

/-!
Verification of the dkg-node premium-content gateway.

This file gives a shallow embedding of the pay-per-query premium content
gateway of the repository:

* `X402PaymentService` (src/unnamed/part_003): `getPaymentRequest`,
  `sendPayment`, `verifyPayment`, `settle402`, `parse402Headers`;
* the `purchase_premium_medical_sources` and
  `publish_premium_medical_sources` tool handlers and their shared
  `premiumQueryCache` (src/unnamed/part_004);
* `MedicalSourcesService.fetchWithX402`
  (src/packages/plugin-health-guardian/src/services/dkgService.ts).

External collaborators (the viem chain client, the fetch function, the
Europe PMC content fetch, the DKG publish client) are modelled as explicit
environment parameters.  Machine integers (wei amounts, gas, timestamps)
are modelled as `Nat`; JavaScript truthiness on optional strings is made
explicit (`jsOr`, `truthy`).  Each orchestrator step additionally returns a
list of `Ev` events recording which external side effects were invoked, so
that statements like "no transaction is submitted" are expressible.
-/

/-- Lowercasing of a string (JS `toLowerCase` on the ASCII range),
written over the character list so that it evaluates by reduction. -/
def lowerStr (s : String) : String := ⟨s.data.map Char.toLower⟩

/-- Removal of leading and trailing whitespace (JS `trim`). -/
def trimStr (s : String) : String :=
  ⟨((s.data.dropWhile Char.isWhitespace).reverse.dropWhile Char.isWhitespace).reverse⟩

/-- Boolean test that the second character list starts with the first. -/
def listStarts : List Char → List Char → Bool
  | [], _ => true
  | _ :: _, [] => false
  | p :: ps, c :: cs => p == c && listStarts ps cs

/-- JS `startsWith`: `s` starts with `lit`. -/
def strStarts (lit s : String) : Bool := listStarts lit.data s.data

/-- JS `endsWith`: `s` ends with `lit`. -/
def strEnds (lit s : String) : Bool := listStarts lit.data.reverse s.data.reverse

/-- Decimal-digit accumulation for `strToNat`. -/
def natOfDigits : List Char → Nat → Option Nat
  | [], acc => some acc
  | c :: rest, acc =>
      if c.isDigit then natOfDigits rest (acc * 10 + (c.toNat - 48)) else none

/-- Decimal parsing of a string of digits (`String.toNat?`). -/
def strToNat (s : String) : Option Nat :=
  if s.data.isEmpty then none else natOfDigits s.data 0

/-- Split of a character list at a separator character. -/
def splitChar (sep : Char) : List Char → List (List Char)
  | [] => [[]]
  | c :: rest =>
      let r := splitChar sep rest
      if c == sep then [] :: r else (c :: r.headD []) :: r.tail

/-- Split of a character list at every character satisfying `p`. -/
def splitPred (p : Char → Bool) : List Char → List (List Char)
  | [] => [[]]
  | c :: rest =>
      let r := splitPred p rest
      if p c then [] :: r else (c :: r.headD []) :: r.tail

/-- JavaScript `o || d` on an optional string: `undefined`/`null` and the
empty string fall through to the default. -/
def jsOr (o : Option String) (d : String) : String :=
  match o with
  | some s => if s = "" then d else s
  | none => d

/-- JavaScript truthiness of an optional string: `some s` survives only
when `s` is nonempty. -/
def truthy (o : Option String) : Option String :=
  match o with
  | some s => if s = "" then none else some s
  | none => none

/-- The wei value of one whole NEURO token (18 decimals). -/
def weiPerEther : Nat := 10 ^ 18

/-- Embedding of viem `parseEther`: a nonnegative decimal token string to
wei.  The fractional part is truncated to 18 digits and right-padded. -/
def parseEther (s : String) : Nat :=
  match (splitChar '.' s.data).map String.mk with
  | [i] => ((strToNat i).getD 0) * weiPerEther
  | [i, f] =>
      let f18 : List Char := f.data.take 18
      ((strToNat i).getD 0) * weiPerEther +
        ((strToNat ⟨f18⟩).getD 0) * 10 ^ (18 - f18.length)
  | _ => 0

/-- Digits of the fractional part of a wei amount, trailing zeros
stripped, as rendered by viem `formatEther`. -/
def fracDigits (r : Nat) : String :=
  let s := toString r
  let padded := List.replicate (18 - s.length) '0' ++ s.data
  ⟨(padded.reverse.dropWhile (fun c => c == '0')).reverse⟩

/-- Embedding of viem `formatEther`: wei to decimal token string. -/
def formatEther (wei : Nat) : String :=
  if wei % weiPerEther = 0 then toString (wei / weiPerEther)
  else toString (wei / weiPerEther) ++ "." ++ fracDigits (wei % weiPerEther)

/-- Static configuration of `X402PaymentService` (src/unnamed/part_003,
lines 8-20): the required amount string, the configured payment address,
the signing private key (empty when `DKG_PUBLISH_WALLET` is unset), and
the address derived from that key by `privateKeyToAccount`. -/
structure X402Config where
  requiredAmount : String
  paymentAddress : String
  privateKey : String
  accountAddress : String
deriving DecidableEq

/-- Per-call overrides `{ payTo?, amount? }` accepted by the payment
service methods. -/
structure PayOverrides where
  payTo : Option String
  amount : Option String
deriving DecidableEq

/-- Embedding of `X402PaymentService.normalizePayTo` (part_003, lines
22-25): falsy input or input not starting with `0x` becomes `undefined`. -/
def normalizePayTo (input : Option String) : Option String :=
  match input with
  | none => none
  | some s =>
      if s = "" then none
      else if strStarts "0x" s then some s else none

/-- Embedding of the `resolvedPayTo` computed by `ensureWallet` (part_003,
line 59): the configured payment address, falling back to the wallet's own
address, lowercased. -/
def resolvedPayTo (cfg : X402Config) : String :=
  lowerStr (if cfg.paymentAddress = "" then cfg.accountAddress else cfg.paymentAddress)

/-- The error message thrown by `ensureWallet` when no signing credential
is configured (part_003, line 34). -/
def configErrorMsg : String := "X402 payment wallet not configured (set DKG_PUBLISH_WALLET)"

/-- The recipient a verification or settlement call checks against:
the normalized override, or else the resolved default (part_003, lines
128 and 203). -/
def expectedPayTo (cfg : X402Config) (o : PayOverrides) : String :=
  (normalizePayTo o.payTo).getD (resolvedPayTo cfg)

/-- The payment request structure built by `getPaymentRequest` (part_003,
lines 67-80); the static `requirement` sub-object is omitted. -/
structure PaymentRequest where
  address : String
  amount : String
  currency : String
  network : String
  chainId : String
deriving DecidableEq

/-- Embedding of `X402PaymentService.getPaymentRequest` (part_003, lines
65-89).  It calls `ensureWallet` first, so with no signing credential it
throws the configuration error; otherwise it is a pure function of the
configuration and the overrides. -/
def getPaymentRequest (cfg : X402Config) (o : PayOverrides) : Except String PaymentRequest :=
  if cfg.privateKey = "" then .error configErrorMsg
  else .ok ⟨expectedPayTo cfg o, jsOr o.amount cfg.requiredAmount,
    "NEURO", "NeuroWeb Testnet", "20430"⟩

/-- An on-chain transaction as seen through viem `getTransaction`:
recipient (absent for contract creation), transferred value in wei, and
sender. -/
structure ChainTx where
  toAddr : Option String
  value : Nat
  sender : String
deriving DecidableEq

/-- A transaction receipt as seen through viem `getTransactionReceipt`. -/
structure ChainReceipt where
  status : String
  blockNumber : Nat
deriving DecidableEq

/-- The chain-client boundary: wallet balance, current gas price, the hash
`sendTransaction` would return, and lookup of receipts and transactions by
hash (absent models both "not found" results and thrown not-found
errors, which the service catches into the same unverified outcome). -/
structure ChainEnv where
  balance : Nat
  gasPrice : Nat
  submitHash : String
  receiptOf : String → Option ChainReceipt
  txOf : String → Option ChainTx

/-- Observable side-effect events emitted by the embedded operations. -/
inductive Ev where
  | sendPaymentCall
  | submitTx (h : String)
  | verifyCall (h : String)
  | contentFetch
  | publishCall
  | httpFetch
deriving DecidableEq

/-- Result shape of `sendPayment` / `settle402`:
`{ txHash?, error? }`. -/
structure SendResult where
  txHash : Option String
  error : Option String
deriving DecidableEq

/-- The insufficient-funds message built by `sendPayment` (part_003,
lines 149-153), carrying the formatted balance, the formatted total
required, the requested amount and the formatted fee. -/
def insufficientMsg (balance totalCost : Nat) (amount : String) (fee : Nat) : String :=
  "Insufficient funds: balance " ++ formatEther balance ++ " NEURO, need ~" ++
    formatEther totalCost ++ " NEURO (value " ++ amount ++ " + fee " ++
    formatEther fee ++ ")."

/-- The fixed gas limit used for the transfer preflight (part_003,
line 145). -/
def transferGasLimit : Nat := 21000

/-- Embedding of `X402PaymentService.sendPayment` (part_003, lines
125-174).  The `catch` turns the `ensureWallet` throw into an error
result.  The event list always starts with `.sendPaymentCall` (the
invocation itself) and contains `.submitTx h` exactly when
`sendTransaction` is reached. -/
def sendPayment (cfg : X402Config) (env : ChainEnv) (o : PayOverrides) :
    SendResult × List Ev :=
  if cfg.privateKey = "" then (⟨none, some configErrorMsg⟩, [.sendPaymentCall])
  else
    let payTo := expectedPayTo cfg o
    if payTo = "" then (⟨none, some "Payment address not configured"⟩, [.sendPaymentCall])
    else
      let amount := jsOr o.amount cfg.requiredAmount
      let value := parseEther amount
      let estimatedFee := env.gasPrice * transferGasLimit
      let totalCost := value + estimatedFee
      if env.balance < totalCost then
        (⟨none, some (insufficientMsg env.balance totalCost amount estimatedFee)⟩,
          [.sendPaymentCall])
      else
        let h := env.submitHash
        let success := match env.receiptOf h with
          | some r => r.status == "success"
          | none => false
        (if success then ⟨some h, none⟩ else ⟨none, some "Payment transaction failed"⟩,
          [.sendPaymentCall, .submitTx h])

/-- Result shape of `verifyPayment`, mirroring the `PaymentVerification`
interface (src/packages/.../types/medicalSources.ts). -/
structure PaymentVerification where
  verified : Bool
  txHash : Option String
  amount : Option String
  sender : Option String
  blockNumber : Option Nat
deriving DecidableEq

/-- Embedding of `X402PaymentService.verifyPayment` (part_003, lines
179-241).  With no signing credential the `ensureWallet` throw is caught
and the call returns an unverified result carrying only the hash.  With
both lookups found, `verified` is the conjunction of the three predicates
of lines 207-211.  The single `.verifyCall` event records the
invocation. -/
def verifyPayment (cfg : X402Config) (env : ChainEnv) (txHash : String)
    (o : PayOverrides) : PaymentVerification × List Ev :=
  if cfg.privateKey = "" then (⟨false, some txHash, none, none, none⟩, [.verifyCall txHash])
  else
    match env.receiptOf txHash, env.txOf txHash with
    | some receipt, some tx =>
        let payTo := expectedPayTo cfg o
        let expectedAmount := jsOr o.amount cfg.requiredAmount
        let isCorrectRecipient := match tx.toAddr with
          | some a => lowerStr a == lowerStr payTo
          | none => false
        let isCorrectAmount := decide (parseEther expectedAmount ≤ tx.value)
        let isSuccessful := receipt.status == "success"
        let verified := isCorrectRecipient && isCorrectAmount && isSuccessful
        (⟨verified, some txHash, some (formatEther tx.value ++ " NEURO"),
          some tx.sender, some receipt.blockNumber⟩, [.verifyCall txHash])
    | _, _ => (⟨false, some txHash, none, none, none⟩, [.verifyCall txHash])

/-- Embedding of `X402PaymentService.settle402` (part_003, lines 262-273):
settle via `sendPayment`, then verify the produced hash; an unverified
settlement becomes the `Payment not verified` error. -/
def settle402 (cfg : X402Config) (env : ChainEnv)
    (requirement : PayOverrides) : SendResult × List Ev :=
  let o : PayOverrides := ⟨normalizePayTo requirement.payTo, requirement.amount⟩
  let payment := sendPayment cfg env o
  match truthy payment.1.txHash with
  | none => payment
  | some h =>
      let ver := verifyPayment cfg env h o
      (if ver.1.verified then ⟨some h, none⟩ else ⟨none, some "Payment not verified"⟩,
        payment.2 ++ ver.2)

/-- A 402 challenge extracted from response headers by `parse402Headers`
(part_003, lines 278-283). -/
structure Req402 where
  payTo : Option String
  amount : Option String
  chainId : Option String
deriving DecidableEq

/-- An HTTP response at the fetch boundary: its status code and a header
lookup. -/
structure HttpResponse where
  status : Nat
  headerGet : String → Option String

/-- Embedding of `X402PaymentService.parse402Headers`: each header value
goes through `|| undefined`, so an empty header reads as absent. -/
def parse402Headers (res : HttpResponse) : Req402 :=
  ⟨truthy (res.headerGet "x-402-payto"), truthy (res.headerGet "x-402-amount"),
    truthy (res.headerGet "x-402-chainid")⟩

/-- Embedding of `MedicalSourcesService.fetchWithX402` (dkgService.ts,
lines 196-214).  `fetchEnv` models `fetch` at the fixed URL as a function
of the request headers; `hasPaymentService` models the optional
constructor argument.  A thrown settlement failure is an `Except.error`.
Each actual `fetch` emits one `.httpFetch` event. -/
def fetchWithX402 (cfg : X402Config) (env : ChainEnv)
    (fetchEnv : List (String × String) → HttpResponse)
    (hasPaymentService : Bool) (headers : List (String × String)) :
    Except String HttpResponse × List Ev :=
  let initial := fetchEnv headers
  if initial.status ≠ 402 ∨ hasPaymentService = false then (.ok initial, [.httpFetch])
  else
    let requirement := parse402Headers initial
    let payment := settle402 cfg env ⟨requirement.payTo, requirement.amount⟩
    match truthy payment.1.txHash with
    | none =>
        (.error (jsOr payment.1.error "X402 payment failed"), .httpFetch :: payment.2)
    | some h =>
        (.ok (fetchEnv (headers ++ [("x-402-payment-tx", h)])),
          .httpFetch :: payment.2 ++ [.httpFetch])

/-- A record of the Europe PMC article shape kept by the handlers
(src/packages/.../types/medicalSources.ts). -/
structure MedicalSource where
  id : String
  title : String
  authors : String
  journal : String
  year : String
  doi : Option String
  url : Option String
deriving DecidableEq

/-- The data of a successful purchase response that the cache stores and
replays: the verified transaction hash and the premium sources
(part_004, lines 249-296). -/
structure PremiumPayload where
  txHash : String
  sources : List MedicalSource
deriving DecidableEq

/-- Status of a `premiumQueryCache` entry (part_004, line 65). -/
inductive CacheStatus where
  | pending
  | success
  | failed
deriving DecidableEq

/-- A `premiumQueryCache` entry (part_004, lines 64-71). -/
structure CacheEntry where
  status : CacheStatus
  timestamp : Nat
  response : Option PremiumPayload
  sources : Option (List MedicalSource)
  txHash : Option String
  publishedUal : Option String
deriving DecidableEq

/-- The in-memory `premiumQueryCache` map, as a function from normalized
query keys to optional entries. -/
def Cache : Type := String → Option CacheEntry

/-- Map update, modelling `premiumQueryCache.set`. -/
def Cache.set (c : Cache) (k : String) (e : CacheEntry) : Cache :=
  fun k' => if k' = k then some e else c k'

/-- Map removal, modelling `premiumQueryCache.delete`. -/
def Cache.del (c : Cache) (k : String) : Cache :=
  fun k' => if k' = k then none else c k'

/-- The fixed cache TTL `PREMIUM_QUERY_CACHE_MS` of five minutes
(part_004, line 63), in milliseconds. -/
def premiumQueryCacheMs : Nat := 5 * 60 * 1000

/-- Removal of a case-insensitive leading literal together with the
whitespace that follows it, modelling `replace(/^lit:\s*/i, "")`. -/
def stripLeadCI (lit : String) (s : String) : String :=
  if strStarts lit (lowerStr s) then ⟨(s.data.drop lit.length).dropWhile Char.isWhitespace⟩
  else s

/-- Removal of one leading and one trailing double quote, modelling
`replace(/^\x22|\x22$/g, "")`. -/
def stripOuterQuotes (s : String) : String :=
  let s1 := if strStarts "\"" s then ⟨s.data.drop 1⟩ else s
  if strEnds "\"" s1 then ⟨s1.data.dropLast⟩ else s1

/-- The query cleanup of the purchase handler (part_004, lines 118-125):
strip the two recognised prefixes case-insensitively, strip outer quotes,
then trim. -/
def parseQuery (raw : String) : String :=
  trimStr (stripOuterQuotes (stripLeadCI "get medical sources for:"
    (stripLeadCI "sources:" raw)))

/-- The dedup cache key of the purchase handler (part_004, line 128): the
cleaned query, lowercased. -/
def purchaseKey (raw : String) : String :=
  lowerStr (parseQuery raw)

/-- The arguments of one `purchase_premium_medical_sources` call after
zod parsing: the query (the handler's chain of fallbacks for the raw
query is modelled by this single optional field), the optional payment
transaction hash, and the auto-pay flag after `Boolean(...)` coercion
(absent coerces to `false`, part_004, line 162). -/
structure PurchaseArgs where
  query : Option String
  paymentTxHash : Option String
  autoPay : Bool
deriving DecidableEq

/-- The possible returns of the purchase handler, one constructor per
`return` site of part_004, carrying the dynamic data of the real
response. -/
inductive PurchaseResponse where
  /-- Lines 137-146: an unexpired pending entry exists, ask to wait. -/
  | waitPending (query : String)
  /-- Line 152: an unexpired success entry exists, replay its response. -/
  | cachedReplay (p : PremiumPayload)
  /-- Lines 166-169: empty query, error. -/
  | queryRequired
  /-- Lines 175-187: no hash and no auto-pay, return payment instructions. -/
  | paymentInstructions (req : PaymentRequest)
  /-- Lines 198-206: auto-pay settlement failed. -/
  | paymentSendFailed (err : Option String)
  /-- Lines 226-234: payment verification failed, content withheld. -/
  | verificationFailed (txHash : String)
  /-- Lines 271-288: premium sources returned with the transaction hash. -/
  | premiumResult (p : PremiumPayload)
  /-- Lines 299-306: the outer catch (reachable through the
  `getPaymentRequest` throw when no wallet is configured). -/
  | unexpectedError (msg : String)
deriving DecidableEq

/-- The outcome of one purchase call: the cache after the call, the
response, and the emitted side-effect events. -/
structure PurchaseOut where
  cache : Cache
  resp : PurchaseResponse
  events : List Ev

/-- A freshly committed terminal entry, as written by the failure commits
of part_004 (status and timestamp only). -/
def bareEntry (st : CacheStatus) (t : Nat) : CacheEntry :=
  ⟨st, t, none, none, none, none⟩

/-- Verification, fetch and the success commit: the tail of the purchase
handler from line 223 on, entered with the transaction hash in hand.
`c1` is the cache with the pending claim already written; `t2` stands for
the `Date.now()` of the terminal commits. -/
def afterPayment (cfg : X402Config) (env : ChainEnv)
    (fetchPremium : String → List MedicalSource) (c1 : Cache)
    (query key : String) (t2 : Nat) (txHash : String) (ev0 : List Ev) :
    PurchaseOut :=
  let ver := verifyPayment cfg env txHash ⟨none, none⟩
  if ver.1.verified = false then
    ⟨c1.set key (bareEntry .failed t2), .verificationFailed txHash, ev0 ++ ver.2⟩
  else
    let sources := fetchPremium query
    let payload : PremiumPayload := ⟨txHash, sources⟩
    ⟨c1.set key ⟨.success, t2, some payload, some sources, some txHash, none⟩,
      .premiumResult payload, ev0 ++ ver.2 ++ [.contentFetch]⟩

/-- The body of the purchase handler after the cache check (part_004,
lines 159-298): claim the key as pending, then branch on the presence of
a (truthy) transaction hash and the auto-pay flag.  The branch of line
173 calls `getPaymentRequest`, whose configuration throw is caught by the
outer catch of lines 299-306 (which commits `failed`). -/
def purchaseCore (cfg : X402Config) (env : ChainEnv)
    (fetchPremium : String → List MedicalSource) (c0 : Cache)
    (a : PurchaseArgs) (query key : String) (now t2 : Nat) : PurchaseOut :=
  let c1 := c0.set key (bareEntry .pending now)
  if query = "" then ⟨c1.del key, .queryRequired, []⟩
  else
    match truthy a.paymentTxHash, a.autoPay with
    | none, false =>
        match getPaymentRequest cfg ⟨none, none⟩ with
        | .error e => ⟨c1.set key (bareEntry .failed t2), .unexpectedError e, []⟩
        | .ok req => ⟨c1.del key, .paymentInstructions req, []⟩
    | none, true =>
        let pay := sendPayment cfg env ⟨none, none⟩
        match truthy pay.1.txHash with
        | some h => afterPayment cfg env fetchPremium c1 query key t2 h pay.2
        | none =>
            ⟨c1.set key (bareEntry .failed t2), .paymentSendFailed pay.1.error, pay.2⟩
    | some h, _ => afterPayment cfg env fetchPremium c1 query key t2 h []

/-- One call of the `purchase_premium_medical_sources` handler (part_004,
lines 95-307).  `now` is the `Date.now()` of the cache check and the
pending claim; `t2` the `Date.now()` of any terminal commit.  An
unexpired pending entry debounces; an unexpired success entry replays; an
unexpired failed entry falls through to a fresh attempt; an expired entry
of any status is deleted first. -/
def purchaseStep (cfg : X402Config) (env : ChainEnv)
    (fetchPremium : String → List MedicalSource) (cache : Cache)
    (a : PurchaseArgs) (now t2 : Nat) : PurchaseOut :=
  let query := parseQuery (a.query.getD "")
  let key := lowerStr query
  match cache key with
  | some e =>
      if now - e.timestamp < premiumQueryCacheMs then
        if e.status = .pending then ⟨cache, .waitPending query, []⟩
        else if e.status = .success then
          ⟨cache, .cachedReplay (e.response.getD ⟨"", []⟩), []⟩
        else purchaseCore cfg env fetchPremium cache a query key now t2
      else purchaseCore cfg env fetchPremium (cache.del key) a query key now t2
  | none => purchaseCore cfg env fetchPremium cache a query key now t2

/-- Result shape of the external DKG publish call
(`publishAggregatedSourcesToDkg`). -/
structure DkgPublishResult where
  ual : Option String
  error : Option String
deriving DecidableEq

/-- The possible returns of the publish handler, one constructor per
`return` site of part_004, lines 319-396. -/
inductive PublishResponse where
  /-- Lines 321-331: empty query, error. -/
  | noQuery
  /-- Lines 334-344: no recent success entry with a nonempty payload. -/
  | noPurchase (query : String)
  /-- Lines 347-356: a published reference already exists; return it. -/
  | alreadyPublished (ual : String)
  /-- Lines 364-379: the publish side effect failed. -/
  | publishFailed (err : Option String)
  /-- Lines 388-395: published, reference attached. -/
  | published (ual : String)
deriving DecidableEq

/-- The outcome of one publish call. -/
structure PublishOut where
  cache : Cache
  resp : PublishResponse
  events : List Ev

/-- One call of the `publish_premium_medical_sources` handler (part_004,
lines 311-397).  `pubRes` is what the external DKG publish would return
if invoked; `.publishCall` is emitted exactly when it is invoked.  `t2`
stands for the `Date.now()` of the commits. -/
def publishStep (pubRes : DkgPublishResult) (cache : Cache) (query : String)
    (t2 : Nat) : PublishOut :=
  let key := trimStr (lowerStr query)
  if key = "" then ⟨cache, .noQuery, []⟩
  else
    match cache key with
    | none => ⟨cache, .noPurchase query, []⟩
    | some e =>
        if e.status ≠ .success ∨ (e.sources.getD []).isEmpty then
          ⟨cache, .noPurchase query, []⟩
        else
          match truthy e.publishedUal with
          | some u => ⟨cache, .alreadyPublished u, []⟩
          | none =>
              match truthy pubRes.error, truthy pubRes.ual with
              | some _, _ =>
                  ⟨cache.set key ⟨.failed, t2, e.response, e.sources, e.txHash,
                    e.publishedUal⟩, .publishFailed pubRes.error, [.publishCall]⟩
              | none, none =>
                  ⟨cache.set key ⟨.failed, t2, e.response, e.sources, e.txHash,
                    e.publishedUal⟩, .publishFailed pubRes.error, [.publishCall]⟩
              | none, some u =>
                  ⟨cache.set key ⟨.success, t2, e.response, e.sources, e.txHash,
                    some u⟩, .published u, [.publishCall]⟩

/-- Collapse of every whitespace run to a single space plus outer trim:
two strings related by `caseWsEquiv` below differ only in letter case or
in whitespace. -/
def wsNormalize (s : String) : String :=
  String.intercalate " "
    (((splitPred Char.isWhitespace s.data).map String.mk).filter (fun t => t ≠ ""))

/-- Two query strings differ only in letter case or in whitespace. -/
def caseWsEquiv (a b : String) : Prop :=
  wsNormalize (lowerStr a) = wsNormalize (lowerStr b)

/-- A query string free of the purchase handler's magic prefixes and
outer quotes, so that its cleanup is exactly `trim`. -/
def magicFree (s : String) : Prop :=
  strStarts "sources:" (lowerStr s) = false ∧
    strStarts "get medical sources for:" (lowerStr s) = false ∧
    strStarts "\"" s = false ∧ strEnds "\"" s = false

/-- A demo configuration with a signing credential. -/
def cfgDemo : X402Config := ⟨"0.02", "0xPayTo", "0xkey", "0xAcct"⟩

/-- A configuration with no signing credential (`DKG_PUBLISH_WALLET`
unset). -/
def cfgNoKey : X402Config := ⟨"0.02", "0xPayTo", "", "0xAcct"⟩

/-- The empty dedup cache. -/
def emptyCache : Cache := fun _ => none

/-- A content fetch returning no sources. -/
def noSources : String → List MedicalSource := fun _ => []

/-- A matching 0.02-NEURO transfer to the configured recipient. -/
def demoTx : ChainTx := ⟨some "0xPayTo", 2 * 10 ^ 16, "0xSender"⟩

/-- A chain with an empty wallet and no transactions. -/
def chainEnvPoor : ChainEnv := ⟨0, 1, "0xhash", fun _ => none, fun _ => none⟩

/-- A funded chain on which both `0xabc` and the freshly submitted
`0xhash` are confirmed matching transfers. -/
def chainEnvGood : ChainEnv :=
  ⟨10 ^ 18, 1, "0xhash",
    fun h => if h = "0xabc" ∨ h = "0xhash" then some ⟨"success", 5⟩ else none,
    fun h => if h = "0xabc" ∨ h = "0xhash" then some demoTx else none⟩

/-- A funded chain on which `0xabc` is a confirmed transfer of only 0.001
NEURO to the configured recipient. -/
def chainEnvLowAmount : ChainEnv :=
  ⟨10 ^ 18, 1, "0xhash",
    fun h => if h = "0xabc" then some ⟨"success", 5⟩ else none,
    fun h => if h = "0xabc" then some ⟨some "0xPayTo", 10 ^ 15, "0xSender"⟩ else none⟩

/-- A fetch boundary that answers 402 with challenge headers until the
payment-proof header is attached, then 200. -/
def fetch402Env : List (String × String) → HttpResponse :=
  fun hs =>
    if hs.any (fun p => p.1 = "x-402-payment-tx") then ⟨200, fun _ => none⟩
    else ⟨402, fun n =>
      if n = "x-402-payto" then some "0xPayTo"
      else if n = "x-402-amount" then some "0.02" else none⟩

theorem Cache.set_self (c : Cache) (k : String) (e : CacheEntry) :
    (c.set k e) k = some e := by
  simp [Cache.set]

theorem Cache.del_self (c : Cache) (k : String) : (c.del k) k = none := by
  simp [Cache.del]

theorem truthy_some_ne (o : Option String) (u : String) (h : truthy o = some u) :
    u ≠ "" := by
  unfold truthy at h
  cases o with
  | none => exact absurd h (by simp)
  | some s =>
      by_cases hs : s = ""
      · simp [hs] at h
      · simp [hs] at h; subst h; exact hs

theorem verifyPayment_events (cfg : X402Config) (env : ChainEnv) (h : String)
    (o : PayOverrides) : (verifyPayment cfg env h o).2 = [.verifyCall h] := by
  unfold verifyPayment
  split
  · rfl
  · split <;> rfl

theorem verifyCall_not_in_sendPayment (cfg : X402Config) (env : ChainEnv)
    (o : PayOverrides) (h : String) :
    Ev.verifyCall h ∉ (sendPayment cfg env o).2 := by
  unfold sendPayment
  dsimp only
  split
  · simp
  · split
    · simp
    · split
      · simp
      · simp

theorem sendPaymentCall_head (cfg : X402Config) (env : ChainEnv)
    (o : PayOverrides) :
    (sendPayment cfg env o).2 = [.sendPaymentCall] ∨
      (sendPayment cfg env o).2 = [.sendPaymentCall, .submitTx env.submitHash] := by
  unfold sendPayment
  dsimp only
  split
  · exact Or.inl rfl
  · split
    · exact Or.inl rfl
    · split
      · exact Or.inl rfl
      · exact Or.inr rfl

theorem purchaseStep_of_none (cfg : X402Config) (env : ChainEnv)
    (fetch : String → List MedicalSource) (cache : Cache) (a : PurchaseArgs)
    (now t2 : Nat) (hc : cache (purchaseKey (a.query.getD "")) = none) :
    purchaseStep cfg env fetch cache a now t2 =
      purchaseCore cfg env fetch cache a (parseQuery (a.query.getD ""))
        (purchaseKey (a.query.getD "")) now t2 := by
  simp only [purchaseKey] at hc
  unfold purchaseStep
  simp only [hc, purchaseKey]

theorem purchaseStep_of_pending (cfg : X402Config) (env : ChainEnv)
    (fetch : String → List MedicalSource) (cache : Cache) (a : PurchaseArgs)
    (now t2 : Nat) (e : CacheEntry)
    (hc : cache (purchaseKey (a.query.getD "")) = some e)
    (hfresh : now - e.timestamp < premiumQueryCacheMs)
    (hst : e.status = .pending) :
    purchaseStep cfg env fetch cache a now t2 =
      ⟨cache, .waitPending (parseQuery (a.query.getD "")), []⟩ := by
  simp only [purchaseKey] at hc
  unfold purchaseStep
  simp only [hc, hfresh, hst, if_pos, if_true]

theorem purchaseStep_of_success (cfg : X402Config) (env : ChainEnv)
    (fetch : String → List MedicalSource) (cache : Cache) (a : PurchaseArgs)
    (now t2 : Nat) (e : CacheEntry)
    (hc : cache (purchaseKey (a.query.getD "")) = some e)
    (hfresh : now - e.timestamp < premiumQueryCacheMs)
    (hst : e.status = .success) :
    purchaseStep cfg env fetch cache a now t2 =
      ⟨cache, .cachedReplay (e.response.getD ⟨"", []⟩), []⟩ := by
  simp only [purchaseKey] at hc
  unfold purchaseStep
  simp [hc, hfresh, hst]

theorem purchaseStep_of_failed_fresh (cfg : X402Config) (env : ChainEnv)
    (fetch : String → List MedicalSource) (cache : Cache) (a : PurchaseArgs)
    (now t2 : Nat) (e : CacheEntry)
    (hc : cache (purchaseKey (a.query.getD "")) = some e)
    (hfresh : now - e.timestamp < premiumQueryCacheMs)
    (hst : e.status = .failed) :
    purchaseStep cfg env fetch cache a now t2 =
      purchaseCore cfg env fetch cache a (parseQuery (a.query.getD ""))
        (purchaseKey (a.query.getD "")) now t2 := by
  simp only [purchaseKey] at hc
  unfold purchaseStep
  simp [hc, hfresh, hst, purchaseKey]

theorem purchaseStep_of_expired (cfg : X402Config) (env : ChainEnv)
    (fetch : String → List MedicalSource) (cache : Cache) (a : PurchaseArgs)
    (now t2 : Nat) (e : CacheEntry)
    (hc : cache (purchaseKey (a.query.getD "")) = some e)
    (hexp : ¬ now - e.timestamp < premiumQueryCacheMs) :
    purchaseStep cfg env fetch cache a now t2 =
      purchaseCore cfg env fetch (cache.del (purchaseKey (a.query.getD ""))) a
        (parseQuery (a.query.getD "")) (purchaseKey (a.query.getD "")) now t2 := by
  simp only [purchaseKey] at hc
  unfold purchaseStep
  simp [hc, hexp, purchaseKey]

theorem afterPayment_hash_of_verifyCall (cfg : X402Config) (env : ChainEnv)
    (fetch : String → List MedicalSource) (c1 : Cache) (query key : String)
    (t2 : Nat) (hx : String) (ev0 : List Ev)
    (hev : ∀ h, Ev.verifyCall h ∉ ev0) (h : String)
    (hmem : Ev.verifyCall h ∈
      (afterPayment cfg env fetch c1 query key t2 hx ev0).events) :
    h = hx := by
  unfold afterPayment at hmem
  by_cases hv : (verifyPayment cfg env hx ⟨none, none⟩).1.verified = false
  · simp [hv, verifyPayment_events] at hmem
    rcases hmem with hmem | hmem
    · exact absurd hmem (hev h)
    · exact hmem
  · simp [hv, verifyPayment_events] at hmem
    rcases hmem with hmem | hmem
    · exact absurd hmem (hev h)
    · exact hmem

theorem afterPayment_out (cfg : X402Config) (env : ChainEnv)
    (fetch : String → List MedicalSource) (c1 : Cache) (query key : String)
    (t2 : Nat) (hx : String) (ev0 : List Ev) :
    ((verifyPayment cfg env hx ⟨none, none⟩).1.verified = false →
      (afterPayment cfg env fetch c1 query key t2 hx ev0).cache key =
        some (bareEntry .failed t2) ∧
      (afterPayment cfg env fetch c1 query key t2 hx ev0).resp =
        .verificationFailed hx) ∧
    (∀ p, (afterPayment cfg env fetch c1 query key t2 hx ev0).resp =
        .premiumResult p →
      p.txHash = hx ∧ (verifyPayment cfg env hx ⟨none, none⟩).1.verified = true) := by
  constructor
  · intro hv
    unfold afterPayment
    simp [hv, Cache.set_self]
  · intro p hp
    unfold afterPayment at hp
    by_cases hv : (verifyPayment cfg env hx ⟨none, none⟩).1.verified = false
    · simp [hv] at hp
    · simp [hv] at hp
      refine ⟨?_, by revert hv; cases (verifyPayment cfg env hx ⟨none, none⟩).1.verified <;> simp⟩
      cases hp
      rfl

theorem purchaseCore_entry_not_pending (cfg : X402Config) (env : ChainEnv)
    (fetch : String → List MedicalSource) (c0 : Cache) (a : PurchaseArgs)
    (query key : String) (now t2 : Nat) (e' : CacheEntry)
    (h : (purchaseCore cfg env fetch c0 a query key now t2).cache key = some e') :
    e'.status ≠ .pending := by
  unfold purchaseCore at h
  by_cases hq : query = ""
  · simp [hq, Cache.del_self] at h
  · simp only [hq, if_false, if_neg] at h
    rcases htr : truthy a.paymentTxHash with _ | hsh
    · rcases hap : a.autoPay with _ | _
      · simp only [htr, hap] at h
        rcases hreq : getPaymentRequest cfg ⟨none, none⟩ with msg | req
        · simp [hreq, Cache.set_self] at h
          rw [← h]
          simp [bareEntry]
        · simp [hreq, Cache.del_self] at h
      · simp only [htr, hap] at h
        rcases hpt : truthy (sendPayment cfg env ⟨none, none⟩).1.txHash with _ | h'
        · simp only [hpt] at h
          simp [Cache.set_self] at h
          rw [← h]
          simp [bareEntry]
        · simp only [hpt] at h
          unfold afterPayment at h
          by_cases hv : (verifyPayment cfg env h' ⟨none, none⟩).1.verified = false
          · simp [hv, Cache.set_self] at h
            rw [← h]
            simp [bareEntry]
          · simp [hv, Cache.set_self] at h
            rw [← h]
            simp
    · simp only [htr] at h
      unfold afterPayment at h
      by_cases hv : (verifyPayment cfg env hsh ⟨none, none⟩).1.verified = false
      · simp [hv, Cache.set_self] at h
        rw [← h]
        simp [bareEntry]
      · simp [hv, Cache.set_self] at h
        rw [← h]
        simp

theorem purchaseCore_verified_gate (cfg : X402Config) (env : ChainEnv)
    (fetch : String → List MedicalSource) (c0 : Cache) (a : PurchaseArgs)
    (query key : String) (now t2 : Nat) (h : String)
    (hmem : Ev.verifyCall h ∈
      (purchaseCore cfg env fetch c0 a query key now t2).events) :
    (∀ p, (purchaseCore cfg env fetch c0 a query key now t2).resp =
        .premiumResult p →
      p.txHash = h ∧ (verifyPayment cfg env h ⟨none, none⟩).1.verified = true) ∧
    ((verifyPayment cfg env h ⟨none, none⟩).1.verified = false →
      (purchaseCore cfg env fetch c0 a query key now t2).cache key =
        some (bareEntry .failed t2) ∧
      (purchaseCore cfg env fetch c0 a query key now t2).resp =
        .verificationFailed h) := by
  by_cases hq : query = ""
  · exfalso
    unfold purchaseCore at hmem
    simp [hq] at hmem
  · rcases htr : truthy a.paymentTxHash with _ | hsh
    · rcases hap : a.autoPay with _ | _
      · exfalso
        unfold purchaseCore at hmem
        rcases hreq : getPaymentRequest cfg ⟨none, none⟩ with msg | req <;>
          simp [hq, htr, hap, hreq] at hmem
      · rcases hpt : truthy (sendPayment cfg env ⟨none, none⟩).1.txHash with _ | h'
        · exfalso
          unfold purchaseCore at hmem
          simp [hq, htr, hap, hpt] at hmem
          exact verifyCall_not_in_sendPayment cfg env ⟨none, none⟩ h hmem
        · have heq : purchaseCore cfg env fetch c0 a query key now t2 =
              afterPayment cfg env fetch (c0.set key (bareEntry .pending now))
                query key t2 h' (sendPayment cfg env ⟨none, none⟩).2 := by
            unfold purchaseCore
            simp [hq, htr, hap, hpt]
          rw [heq] at hmem ⊢
          have hhx : h = h' := afterPayment_hash_of_verifyCall cfg env fetch
            (c0.set key (bareEntry .pending now)) query key t2 h'
            (sendPayment cfg env ⟨none, none⟩).2
            (fun h0 => verifyCall_not_in_sendPayment cfg env ⟨none, none⟩ h0) h hmem
          subst hhx
          have ho := afterPayment_out cfg env fetch
            (c0.set key (bareEntry .pending now)) query key t2 h
            (sendPayment cfg env ⟨none, none⟩).2
          exact ⟨ho.2, ho.1⟩
    · have heq : purchaseCore cfg env fetch c0 a query key now t2 =
          afterPayment cfg env fetch (c0.set key (bareEntry .pending now))
            query key t2 hsh [] := by
        unfold purchaseCore
        simp [hq, htr]
      rw [heq] at hmem ⊢
      have hhx : h = hsh := afterPayment_hash_of_verifyCall cfg env fetch
        (c0.set key (bareEntry .pending now)) query key t2 hsh []
        (fun h0 => by simp) h hmem
      subst hhx
      have ho := afterPayment_out cfg env fetch
        (c0.set key (bareEntry .pending now)) query key t2 h []
      exact ⟨ho.2, ho.1⟩

/-- C1: a purchase invocation that reaches the payment stage (it invoked
`verifyPayment` on hash `h`) returns premium content only if that
verification returned `verified = true` for `h`; whenever it returned
`verified = false`, the cache entry for the normalized query is committed
`failed` and the response is the explicit payment-verification-failure
error, which carries no premium sources. -/
theorem purchase_premium_gated_on_verification (cfg : X402Config)
    (env : ChainEnv) (fetch : String → List MedicalSource) (cache : Cache)
    (a : PurchaseArgs) (now t2 : Nat) (h : String)
    (hmem : Ev.verifyCall h ∈ (purchaseStep cfg env fetch cache a now t2).events) :
    (∀ p, (purchaseStep cfg env fetch cache a now t2).resp = .premiumResult p →
      p.txHash = h ∧ (verifyPayment cfg env h ⟨none, none⟩).1.verified = true) ∧
    ((verifyPayment cfg env h ⟨none, none⟩).1.verified = false →
      (purchaseStep cfg env fetch cache a now t2).cache
          (purchaseKey (a.query.getD "")) = some (bareEntry .failed t2) ∧
      (purchaseStep cfg env fetch cache a now t2).resp =
        .verificationFailed h) := by
  rcases hc : cache (purchaseKey (a.query.getD "")) with _ | e
  · rw [purchaseStep_of_none cfg env fetch cache a now t2 hc] at hmem ⊢
    exact purchaseCore_verified_gate cfg env fetch cache a _ _ now t2 h hmem
  · by_cases hfresh : now - e.timestamp < premiumQueryCacheMs
    · rcases hst : e.status with _ | _ | _
      · exfalso
        rw [purchaseStep_of_pending cfg env fetch cache a now t2 e hc hfresh hst]
          at hmem
        simp at hmem
      · exfalso
        rw [purchaseStep_of_success cfg env fetch cache a now t2 e hc hfresh hst]
          at hmem
        simp at hmem
      · rw [purchaseStep_of_failed_fresh cfg env fetch cache a now t2 e hc hfresh
          hst] at hmem ⊢
        exact purchaseCore_verified_gate cfg env fetch cache a _ _ now t2 h hmem
    · rw [purchaseStep_of_expired cfg env fetch cache a now t2 e hc hfresh]
        at hmem ⊢
      exact purchaseCore_verified_gate cfg env fetch _ a _ _ now t2 h hmem

set_option maxRecDepth 8000 in
theorem purchase_premium_gated_on_verification_witness :
    Ev.verifyCall "0xabc" ∈ (purchaseStep cfgDemo chainEnvLowAmount noSources
      emptyCache ⟨some "q", some "0xabc", false⟩ 0 1).events ∧
    (purchaseStep cfgDemo chainEnvLowAmount noSources emptyCache
      ⟨some "q", some "0xabc", false⟩ 0 1).cache (purchaseKey "q") =
      some (bareEntry .failed 1) ∧
    (purchaseStep cfgDemo chainEnvLowAmount noSources emptyCache
      ⟨some "q", some "0xabc", false⟩ 0 1).resp = .verificationFailed "0xabc" := by
  have hmem : Ev.verifyCall "0xabc" ∈ (purchaseStep cfgDemo chainEnvLowAmount
      noSources emptyCache ⟨some "q", some "0xabc", false⟩ 0 1).events := by
    decide
  have hg := purchase_premium_gated_on_verification cfgDemo chainEnvLowAmount
    noSources emptyCache ⟨some "q", some "0xabc", false⟩ 0 1 "0xabc" hmem
  exact ⟨hmem, (hg.2 (by decide)).1, (hg.2 (by decide)).2⟩

/-- C2 (amended): for every normalized query key, while an unexpired
`pending` entry exists a purchase call for the same key returns the
"please wait" response, leaves the cache unchanged and performs no side
effect (in particular it does not invoke `sendPayment`); while an
unexpired `success` entry exists a purchase call returns the cached
response, leaves the cache unchanged and performs no side effect.  After
a `failed` commit, however, a retry within the TTL window may settle
again (see the counterexample), so settlement attempts are only unique
per window along pending/success histories. -/
theorem purchase_debounce_pending_and_success (cfg : X402Config)
    (env : ChainEnv) (fetch : String → List MedicalSource) (cache : Cache)
    (a : PurchaseArgs) (now t2 : Nat) (e : CacheEntry)
    (hc : cache (purchaseKey (a.query.getD "")) = some e)
    (hfresh : now - e.timestamp < premiumQueryCacheMs) :
    (e.status = .pending →
      purchaseStep cfg env fetch cache a now t2 =
        ⟨cache, .waitPending (parseQuery (a.query.getD "")), []⟩) ∧
    (e.status = .success →
      purchaseStep cfg env fetch cache a now t2 =
        ⟨cache, .cachedReplay (e.response.getD ⟨"", []⟩), []⟩) :=
  ⟨fun hst => purchaseStep_of_pending cfg env fetch cache a now t2 e hc hfresh hst,
   fun hst => purchaseStep_of_success cfg env fetch cache a now t2 e hc hfresh hst⟩

theorem purchase_debounce_pending_and_success_witness :
    purchaseStep cfgDemo chainEnvPoor noSources
        (Cache.set (fun _ => none) "q" (bareEntry .pending 0))
        ⟨some "q", none, true⟩ 1 2 =
      ⟨Cache.set (fun _ => none) "q" (bareEntry .pending 0),
        .waitPending "q", []⟩ :=
  (purchase_debounce_pending_and_success cfgDemo chainEnvPoor noSources
    (Cache.set (fun _ => none) "q" (bareEntry .pending 0))
    ⟨some "q", none, true⟩ 1 2 (bareEntry .pending 0)
    (by decide) (by decide)).1 rfl

/-- C2 counterexample: the claim's conclusion "at most one settlement
attempt occurs per key within a TTL window" is false.  Two auto-pay
purchase calls for the same key at times 0 and 2 (both inside one
five-minute window) each invoke `sendPayment` when the first settlement
fails (insufficient funds) and commits `failed`: a fresh `failed` entry
falls through to a new attempt. -/
theorem purchase_two_settlements_within_ttl :
    ((purchaseStep cfgDemo chainEnvPoor noSources emptyCache
        ⟨some "q", none, true⟩ 0 1).events.count .sendPaymentCall) +
      ((purchaseStep cfgDemo chainEnvPoor noSources
        (purchaseStep cfgDemo chainEnvPoor noSources emptyCache
          ⟨some "q", none, true⟩ 0 1).cache
        ⟨some "q", none, true⟩ 2 3).events.count .sendPaymentCall) = 2 ∧
    (2 : Nat) - 0 < premiumQueryCacheMs := by
  constructor <;> decide

/-- C6 (amended): a `pending` cache entry is left untouched by a purchase
call for the same key only while its age is below the TTL; once the TTL
has elapsed, a later purchase call treats it as expired and deletes or
replaces it (it is not preserved until an explicit commit by the
claimant). -/
theorem pending_entry_ttl_behavior (cfg : X402Config) (env : ChainEnv)
    (fetch : String → List MedicalSource) (cache : Cache) (a : PurchaseArgs)
    (now t2 : Nat) (e : CacheEntry)
    (hc : cache (purchaseKey (a.query.getD "")) = some e)
    (hp : e.status = .pending) :
    (now - e.timestamp < premiumQueryCacheMs →
      (purchaseStep cfg env fetch cache a now t2).cache = cache) ∧
    (premiumQueryCacheMs ≤ now - e.timestamp →
      (purchaseStep cfg env fetch cache a now t2).cache
        (purchaseKey (a.query.getD "")) ≠ some e) := by
  constructor
  · intro hfresh
    rw [purchaseStep_of_pending cfg env fetch cache a now t2 e hc hfresh hp]
  · intro hexp
    rw [purchaseStep_of_expired cfg env fetch cache a now t2 e hc (by omega)]
    intro habs
    exact purchaseCore_entry_not_pending cfg env fetch _ a _ _ now t2 e habs hp

theorem pending_entry_ttl_behavior_witness :
    (purchaseStep cfgDemo chainEnvPoor noSources
        (Cache.set (fun _ => none) "q" (bareEntry .pending 7))
        ⟨some "q", none, false⟩ 8 9).cache =
      Cache.set (fun _ => none) "q" (bareEntry .pending 7) :=
  (pending_entry_ttl_behavior cfgDemo chainEnvPoor noSources
    (Cache.set (fun _ => none) "q" (bareEntry .pending 7))
    ⟨some "q", none, false⟩ 8 9 (bareEntry .pending 7)
    (by decide) rfl).1 (by decide)

/-- C6 counterexample: a `pending` entry claimed at time 0 is removed by
a purchase call for the same key at time `premiumQueryCacheMs` — the TTL
branch deletes it and the call proceeds (here to payment instructions,
which release the key), with no commit by the original claimant. -/
theorem pending_entry_removed_after_ttl :
    (purchaseStep cfgDemo chainEnvPoor noSources
        (Cache.set (fun _ => none) "q" (bareEntry .pending 0))
        ⟨some "q", none, false⟩ premiumQueryCacheMs 1).cache "q" = none ∧
    (purchaseStep cfgDemo chainEnvPoor noSources
        (Cache.set (fun _ => none) "q" (bareEntry .pending 0))
        ⟨some "q", none, false⟩ premiumQueryCacheMs 1).resp ≠
      .waitPending "q" := by
  constructor <;> decide

/-- C3: with the service configured and both chain lookups found,
`verifyPayment` returns `verified = true` exactly when the transaction's
recipient equals the required recipient case-insensitively, the
transferred value is at least the required amount in wei, and the receipt
status is success. -/
theorem verifyPayment_verified_iff_predicates (cfg : X402Config)
    (env : ChainEnv) (h : String) (o : PayOverrides) (receipt : ChainReceipt)
    (tx : ChainTx) (hkey : cfg.privateKey ≠ "")
    (hr : env.receiptOf h = some receipt) (ht : env.txOf h = some tx) :
    (verifyPayment cfg env h o).1.verified = true ↔
      ((∃ a, tx.toAddr = some a ∧ lowerStr a = lowerStr (expectedPayTo cfg o)) ∧
        parseEther (jsOr o.amount cfg.requiredAmount) ≤ tx.value ∧
        receipt.status = "success") := by
  unfold verifyPayment
  simp only [if_neg hkey, hr, ht]
  cases htx : tx.toAddr with
  | none => simp [htx]
  | some a => simp [htx, and_assoc]

theorem verifyPayment_verified_iff_predicates_witness :
    (verifyPayment cfgDemo chainEnvGood "0xabc" ⟨none, none⟩).1.verified = true :=
  (verifyPayment_verified_iff_predicates cfgDemo chainEnvGood "0xabc" ⟨none, none⟩
    ⟨"success", 5⟩ demoTx (by decide) (by decide) (by decide)).2
    ⟨⟨"0xPayTo", rfl, by decide⟩, by decide, rfl⟩

theorem sendPayment_insufficient (cfg : X402Config) (env : ChainEnv)
    (o : PayOverrides) (hkey : cfg.privateKey ≠ "")
    (hpay : expectedPayTo cfg o ≠ "")
    (hbal : env.balance <
      parseEther (jsOr o.amount cfg.requiredAmount) + env.gasPrice * transferGasLimit) :
    sendPayment cfg env o =
      (⟨none, some (insufficientMsg env.balance
        (parseEther (jsOr o.amount cfg.requiredAmount) + env.gasPrice * transferGasLimit)
        (jsOr o.amount cfg.requiredAmount) (env.gasPrice * transferGasLimit))⟩,
      [.sendPaymentCall]) := by
  unfold sendPayment
  dsimp only
  rw [if_neg hkey, if_neg hpay, if_pos hbal]

/-- C4: when the wallet balance is below the transfer value plus the
estimated fee (gas price times the fixed 21000 gas limit), `sendPayment`
fails with the insufficient-funds error carrying both the balance and the
required total, and emits no `submitTx` event (no transaction is
submitted); an auto-pay purchase call in that situation commits the cache
entry `failed` and reports the same error. -/
theorem sendPayment_insufficient_funds_fails_fast (cfg : X402Config)
    (env : ChainEnv) (o : PayOverrides)
    (fetch : String → List MedicalSource) (cache : Cache) (a : PurchaseArgs)
    (now t2 : Nat) (hkey : cfg.privateKey ≠ "") :
    (expectedPayTo cfg o ≠ "" →
      env.balance <
        parseEther (jsOr o.amount cfg.requiredAmount) + env.gasPrice * transferGasLimit →
      (sendPayment cfg env o).1 = ⟨none, some (insufficientMsg env.balance
          (parseEther (jsOr o.amount cfg.requiredAmount) + env.gasPrice * transferGasLimit)
          (jsOr o.amount cfg.requiredAmount) (env.gasPrice * transferGasLimit))⟩ ∧
      (sendPayment cfg env o).2 = [.sendPaymentCall]) ∧
    (expectedPayTo cfg ⟨none, none⟩ ≠ "" →
      env.balance < parseEther cfg.requiredAmount + env.gasPrice * transferGasLimit →
      a.paymentTxHash = none → a.autoPay = true →
      cache (purchaseKey (a.query.getD "")) = none →
      parseQuery (a.query.getD "") ≠ "" →
      (purchaseStep cfg env fetch cache a now t2).cache
          (purchaseKey (a.query.getD "")) = some (bareEntry .failed t2) ∧
      (purchaseStep cfg env fetch cache a now t2).resp =
        .paymentSendFailed (some (insufficientMsg env.balance
          (parseEther cfg.requiredAmount + env.gasPrice * transferGasLimit)
          cfg.requiredAmount (env.gasPrice * transferGasLimit))) ∧
      (purchaseStep cfg env fetch cache a now t2).events = [.sendPaymentCall]) := by
  constructor
  · intro hpay hbal
    rw [sendPayment_insufficient cfg env o hkey hpay hbal]
    exact ⟨rfl, rfl⟩
  · intro hpay hbal htx hap hc hq
    rw [purchaseStep_of_none cfg env fetch cache a now t2 hc]
    unfold purchaseCore
    rw [sendPayment_insufficient cfg env ⟨none, none⟩ hkey hpay hbal] at *
    simp [hq, htx, hap, truthy, jsOr, Cache.set_self]

theorem sendPayment_insufficient_funds_fails_fast_witness :
    ((sendPayment cfgDemo chainEnvPoor ⟨none, none⟩).2 = [.sendPaymentCall] ∧
      (purchaseStep cfgDemo chainEnvPoor noSources emptyCache
        ⟨some "q", none, true⟩ 0 1).cache (purchaseKey "q") =
          some (bareEntry .failed 1) ∧
      (purchaseStep cfgDemo chainEnvPoor noSources emptyCache
        ⟨some "q", none, true⟩ 0 1).events = [.sendPaymentCall]) := by
  have hw := sendPayment_insufficient_funds_fails_fast cfgDemo chainEnvPoor
    ⟨none, none⟩ noSources emptyCache ⟨some "q", none, true⟩ 0 1 (by decide)
  have h1 := hw.1 (by decide) (by decide)
  have h2 := hw.2 (by decide) (by decide) rfl rfl rfl (by decide)
  exact ⟨h1.2, h2.1, h2.2.2⟩

theorem settle402_events_shape (cfg : X402Config) (env : ChainEnv)
    (r : PayOverrides) :
    ∃ tail, (settle402 cfg env r).2 =
        (sendPayment cfg env ⟨normalizePayTo r.payTo, r.amount⟩).2 ++ tail ∧
      (tail = [] ∨ ∃ h, tail = [.verifyCall h]) := by
  unfold settle402
  dsimp only
  rcases hpt : truthy (sendPayment cfg env ⟨normalizePayTo r.payTo, r.amount⟩).1.txHash
    with _ | h
  · exact ⟨[], by simp, Or.inl rfl⟩
  · exact ⟨[.verifyCall h], by simp [verifyPayment_events], Or.inr ⟨h, rfl⟩⟩

theorem count_httpFetch_sendPayment (cfg : X402Config) (env : ChainEnv)
    (o : PayOverrides) : (sendPayment cfg env o).2.count .httpFetch = 0 := by
  rcases sendPaymentCall_head cfg env o with h | h <;> rw [h] <;> rfl

theorem count_httpFetch_settle402 (cfg : X402Config) (env : ChainEnv)
    (r : PayOverrides) : (settle402 cfg env r).2.count .httpFetch = 0 := by
  rcases settle402_events_shape cfg env r with ⟨tail, heq, htail⟩
  rw [heq, List.count_append, count_httpFetch_sendPayment]
  rcases htail with h | ⟨h', h⟩ <;> rw [h] <;> rfl

/-- C5: an outbound content fetch returns a non-402 response unchanged
with no payment attempted (a single fetch, no settlement events); on a
402 it parses the challenge headers and runs settlement then verification
in sequence (`settle402` emits the `sendPayment` events followed by at
most one verification event); a settlement failure aborts with the
settlement error after a single fetch (no re-fetch); on success the
original request is re-issued exactly once (two fetches in total) with
the `x-402-payment-tx` payment-proof header carrying the transaction
hash, and the retry response is returned as is — in particular a second
402 is not retried. -/
theorem fetchWithX402_challenge_policy (cfg : X402Config) (env : ChainEnv)
    (fetchEnv : List (String × String) → HttpResponse) (hps : Bool)
    (headers : List (String × String)) :
    ((fetchEnv headers).status ≠ 402 →
      fetchWithX402 cfg env fetchEnv hps headers =
        (.ok (fetchEnv headers), [.httpFetch])) ∧
    ((fetchEnv headers).status = 402 → hps = true →
      (truthy (settle402 cfg env ⟨(parse402Headers (fetchEnv headers)).payTo,
            (parse402Headers (fetchEnv headers)).amount⟩).1.txHash = none →
        (fetchWithX402 cfg env fetchEnv hps headers).1 =
          .error (jsOr (settle402 cfg env
            ⟨(parse402Headers (fetchEnv headers)).payTo,
              (parse402Headers (fetchEnv headers)).amount⟩).1.error
            "X402 payment failed") ∧
        (fetchWithX402 cfg env fetchEnv hps headers).2.count .httpFetch = 1) ∧
      (∀ h, truthy (settle402 cfg env
            ⟨(parse402Headers (fetchEnv headers)).payTo,
              (parse402Headers (fetchEnv headers)).amount⟩).1.txHash = some h →
        (fetchWithX402 cfg env fetchEnv hps headers).1 =
          .ok (fetchEnv (headers ++ [("x-402-payment-tx", h)])) ∧
        (fetchWithX402 cfg env fetchEnv hps headers).2.count .httpFetch = 2)) ∧
    (∀ r, ∃ tail, (settle402 cfg env r).2 =
        (sendPayment cfg env ⟨normalizePayTo r.payTo, r.amount⟩).2 ++ tail ∧
      (tail = [] ∨ ∃ h, tail = [.verifyCall h])) := by
  refine ⟨?_, ?_, settle402_events_shape cfg env⟩
  · intro hstat
    unfold fetchWithX402
    dsimp only
    rw [if_pos (Or.inl hstat)]
  · intro hstat hps'
    subst hps'
    have hcond : ¬((fetchEnv headers).status ≠ 402 ∨ (true : Bool) = false) := by
      simp [hstat]
    constructor
    · intro hnone
      unfold fetchWithX402
      dsimp only
      rw [if_neg hcond]
      simp only [hnone]
      refine ⟨trivial, ?_⟩
      simp [List.count_cons, count_httpFetch_settle402 cfg env]
    · intro h hsome
      unfold fetchWithX402
      dsimp only
      rw [if_neg hcond]
      simp only [hsome]
      refine ⟨trivial, ?_⟩
      simp [List.count_append, List.count_cons, count_httpFetch_settle402 cfg env]

theorem fetchWithX402_challenge_policy_witness :
    (fetchWithX402 cfgDemo chainEnvGood fetch402Env true []).1 =
      .ok (fetch402Env [("x-402-payment-tx", "0xhash")]) ∧
    (fetchWithX402 cfgDemo chainEnvGood fetch402Env true []).2.count .httpFetch = 2 :=
  ((fetchWithX402_challenge_policy cfgDemo chainEnvGood fetch402Env true []).2.1
    (by decide) rfl).2 "0xhash" (by decide)

/-- C7: `publish_premium_medical_sources` requires a cache entry in
status `success` with a nonempty sources payload (otherwise it returns
the error response, changes nothing and performs no publish); if a
published reference already exists on the entry it returns that same
reference unchanged without invoking the publish side effect; otherwise
it invokes the publish exactly once, attaches the resulting reference,
and a second call afterwards returns the same reference with no further
publish — one publish side effect in total. -/
theorem publish_premium_idempotent (pub1 pub2 : DkgPublishResult)
    (cache : Cache) (query : String) (t2 t3 : Nat) (e : CacheEntry)
    (u : String) (hkey : trimStr (lowerStr query) ≠ "")
    (hc : cache (trimStr (lowerStr query)) = some e) :
    ((e.status ≠ .success ∨ (e.sources.getD []).isEmpty) →
      publishStep pub1 cache query t2 = ⟨cache, .noPurchase query, []⟩) ∧
    (e.status = .success → (e.sources.getD []).isEmpty = false →
      (truthy e.publishedUal = some u →
        publishStep pub1 cache query t2 = ⟨cache, .alreadyPublished u, []⟩) ∧
      (truthy e.publishedUal = none → truthy pub1.error = none →
        truthy pub1.ual = some u →
        (publishStep pub1 cache query t2).resp = .published u ∧
        (publishStep pub1 cache query t2).events = [.publishCall] ∧
        (publishStep pub1 cache query t2).cache (trimStr (lowerStr query)) =
          some ⟨.success, t2, e.response, e.sources, e.txHash, some u⟩ ∧
        publishStep pub2 (publishStep pub1 cache query t2).cache query t3 =
          ⟨(publishStep pub1 cache query t2).cache, .alreadyPublished u, []⟩)) := by
  constructor
  · intro hbad
    unfold publishStep
    dsimp only
    rw [if_neg hkey]
    simp only [hc]
    rw [if_pos hbad]
  · intro hsucc hne
    have hcondF : ¬(e.status ≠ .success ∨ ((e.sources.getD []).isEmpty = true)) := by
      simp [hsucc, hne]
    constructor
    · intro hpub
      unfold publishStep
      dsimp only
      rw [if_neg hkey]
      simp only [hc]
      rw [if_neg hcondF]
      simp only [hpub]
    · intro hpub herr hual
      have hstep : publishStep pub1 cache query t2 =
          ⟨Cache.set cache (trimStr (lowerStr query))
            ⟨.success, t2, e.response, e.sources, e.txHash, some u⟩,
            .published u, [.publishCall]⟩ := by
        unfold publishStep
        dsimp only
        rw [if_neg hkey]
        simp only [hc]
        rw [if_neg hcondF]
        simp only [hpub, herr, hual]
      rw [hstep]
      refine ⟨rfl, rfl, Cache.set_self _ _ _, ?_⟩
      unfold publishStep
      dsimp only
      rw [if_neg hkey]
      simp only [Cache.set_self]
      have hcond2 : ¬((CacheEntry.mk .success t2 e.response e.sources e.txHash
          (some u)).status ≠ .success ∨
          (((CacheEntry.mk .success t2 e.response e.sources e.txHash
            (some u)).sources.getD []).isEmpty = true)) := by
        simp [hne]
      rw [if_neg hcond2]
      have htr : truthy (some u) = some u := by
        have hu := truthy_some_ne pub1.ual u hual
        simp [truthy, hu]
      simp only [htr]

/-- A sample premium source for the publish witness. -/
def demoSource : MedicalSource := ⟨"id1", "T", "A", "J", "2024", none, none⟩

/-- A cache holding a purchased, not yet published entry for "q". -/
def successCache : Cache :=
  Cache.set (fun _ => none) "q"
    ⟨.success, 0, some ⟨"0xabc", [demoSource]⟩, some [demoSource], some "0xabc", none⟩

theorem publish_premium_idempotent_witness :
    (publishStep ⟨some "ual:1", none⟩ successCache "q" 5).resp = .published "ual:1" ∧
    (publishStep ⟨some "ual:1", none⟩ successCache "q" 5).events = [.publishCall] ∧
    publishStep ⟨some "ual:2", none⟩
        (publishStep ⟨some "ual:1", none⟩ successCache "q" 5).cache "q" 6 =
      ⟨(publishStep ⟨some "ual:1", none⟩ successCache "q" 5).cache,
        .alreadyPublished "ual:1", []⟩ := by
  have hw := ((publish_premium_idempotent ⟨some "ual:1", none⟩ ⟨some "ual:2", none⟩
    successCache "q" 5 6
    ⟨.success, 0, some ⟨"0xabc", [demoSource]⟩, some [demoSource], some "0xabc", none⟩
    "ual:1" (by decide) (by decide)).2 rfl rfl).2 rfl rfl rfl
  exact ⟨hw.1, hw.2.1, hw.2.2.2⟩

theorem magicFree_parseQuery (q : String) (h : magicFree q) :
    parseQuery q = trimStr q := by
  obtain ⟨h1, h2, h3, h4⟩ := h
  unfold parseQuery stripLeadCI stripOuterQuotes
  simp [h1, h2, h3, h4]

/-- C8 counterexample: "a b" and "a  b" differ only in whitespace, yet
the purchase operation maps them to distinct dedup cache keys — internal
whitespace is not normalized (the handler only trims and lowercases). -/
theorem purchaseKey_internal_whitespace_distinct :
    caseWsEquiv "a b" "a  b" ∧ purchaseKey "a b" ≠ purchaseKey "a  b" := by
  constructor
  · unfold caseWsEquiv
    decide
  · decide

/-- C8 (amended): for queries free of the handler's recognised magic
prefixes and outer quotes, two query strings that differ only in letter
case or in leading/trailing whitespace map to the same dedup cache key;
internal whitespace differences are not normalized and yield distinct
keys. -/
theorem purchaseKey_case_and_outer_whitespace (q1 q2 : String)
    (h1 : magicFree q1) (h2 : magicFree q2)
    (h : lowerStr (trimStr q1) = lowerStr (trimStr q2)) :
    purchaseKey q1 = purchaseKey q2 := by
  unfold purchaseKey
  rw [magicFree_parseQuery q1 h1, magicFree_parseQuery q2 h2]
  exact h

theorem purchaseKey_case_and_outer_whitespace_witness :
    purchaseKey " Diabetes Treatment " = purchaseKey "diabetes treatment" :=
  purchaseKey_case_and_outer_whitespace " Diabetes Treatment "
    "diabetes treatment" (by unfold magicFree; decide)
    (by unfold magicFree; decide) (by decide)

/-- C9 counterexample: with no signing credential configured,
`getPaymentRequest` throws the wallet-not-configured error at resolution
time (via `ensureWallet`) — it does not succeed with the configured
defaults. -/
theorem getPaymentRequest_throws_without_credential :
    getPaymentRequest cfgNoKey ⟨none, none⟩ = .error configErrorMsg := rfl

/-- C9 (amended): `getPaymentRequest` requires the signing credential at
resolution time: with no credential configured it throws the
configuration error immediately; with a credential it succeeds as a pure
function of the configuration and the supplied overrides, using the
configured defaults where no override is given. -/
theorem getPaymentRequest_requires_credential (cfg : X402Config)
    (o : PayOverrides) :
    (cfg.privateKey = "" → getPaymentRequest cfg o = .error configErrorMsg) ∧
    (cfg.privateKey ≠ "" → getPaymentRequest cfg o =
      .ok ⟨expectedPayTo cfg o, jsOr o.amount cfg.requiredAmount,
        "NEURO", "NeuroWeb Testnet", "20430"⟩) := by
  constructor
  · intro h
    unfold getPaymentRequest
    rw [if_pos h]
  · intro h
    unfold getPaymentRequest
    rw [if_neg h]

theorem getPaymentRequest_requires_credential_witness :
    getPaymentRequest cfgDemo ⟨none, some "0.05"⟩ =
      .ok ⟨expectedPayTo cfgDemo ⟨none, some "0.05"⟩,
        jsOr (some "0.05") cfgDemo.requiredAmount,
        "NEURO", "NeuroWeb Testnet", "20430"⟩ :=
  (getPaymentRequest_requires_credential cfgDemo ⟨none, some "0.05"⟩).2 (by decide)

/-- C10: with no signing credential configured, `verifyPayment` does not
throw: it returns `verified = false` with the transaction hash and
without amount/sender/block fields — the same result a configured
service returns for a transaction the chain lookup does not find. -/
theorem verifyPayment_without_credential_unverified (cfg cfg' : X402Config)
    (env env' : ChainEnv) (h : String) (o o' : PayOverrides)
    (hkey : cfg.privateKey = "") (hkey' : cfg'.privateKey ≠ "")
    (hnf : env'.receiptOf h = none) :
    (verifyPayment cfg env h o).1 = ⟨false, some h, none, none, none⟩ ∧
    (verifyPayment cfg env h o).1 = (verifyPayment cfg' env' h o').1 := by
  constructor
  · simp [verifyPayment, hkey]
  · simp [verifyPayment, hkey, hkey', hnf]

theorem verifyPayment_without_credential_unverified_witness :
    (verifyPayment cfgNoKey chainEnvPoor "0xabc" ⟨none, none⟩).1 =
      ⟨false, some "0xabc", none, none, none⟩ ∧
    (verifyPayment cfgNoKey chainEnvPoor "0xabc" ⟨none, none⟩).1 =
      (verifyPayment cfgDemo chainEnvPoor "0xabc" ⟨none, none⟩).1 :=
  verifyPayment_without_credential_unverified cfgNoKey cfgDemo chainEnvPoor
    chainEnvPoor "0xabc" ⟨none, none⟩ ⟨none, none⟩ rfl (by decide) rfl
